import Mathlib

/-!
Shallow embedding of `configuration.go` from the go-ovh client library
(package `govh`), together with proofs about its configuration-resolution
behaviour.

The external INI library (`gopkg.in/ini.v1`) is modelled as the spec
describes it: a merged key-value store keyed by `(section, key)` pairs,
where appending a later file makes its entries override earlier ones for
identical pairs, and where a missing `(section, key)` pair corresponds to
the `nil` branches of `getConfigValue`.  The environment is a total map
from variable names to strings, with the empty string standing for an
unset variable exactly as Go's `os.Getenv` reports it.  The file system
is a map from paths to `Option` INI contents: `none` models a path for
which `unix.Access(path, R_OK)` fails.  The receiver mutation of the Go
method `(c *Client) loadConfig` is made explicit: the embedded
`loadConfig` returns the final client state together with the optional
error, so partial mutation before an error return is observable.
-/

set_option autoImplicit false

namespace Govh

/-- An INI entry `(section, key, value)`. -/
abbrev IniEntry := String × String × String

/-- The merged contents of the appended configuration files, in append
order: later entries override earlier ones on lookup. -/
abbrev Ini := List IniEntry

/-- The process environment, as Go's `os.Getenv` sees it: unset variables
read as the empty string. -/
abbrev Env := String → String

/-- The file system restricted to INI reading: `none` models a path that
is missing or not readable (`unix.Access(path, R_OK) != nil`). -/
abbrev FileSystem := String → Option Ini

/-- `systemConfigPath` from configuration.go. -/
def systemConfigPath : String := "/etc/ovh.conf"

/-- `userConfigPath` from configuration.go (prefixed with the home
directory). -/
def userConfigPath : String := "/.ovh.conf"

/-- `localConfigPath` from configuration.go. -/
def localConfigPath : String := "./ovh.conf"

/-- The mutable fields of the Go `Client` that `loadConfig` touches.
`endpoint` holds the resolved URL (Go type `Endpoint`, a string). -/
structure Client where
  endpoint : String
  appKey : String
  appSecret : String
  consumerKey : String
deriving Repr, DecidableEq

/-- Modelled from the spec: the static `Endpoints` table (declared in the
repository outside configuration.go) mapping symbolic endpoint names to
literal base URLs; the spec names `ovh-eu` as an example entry.  The
theorems below are parameterised over an arbitrary table, so only the
lookup behaviour of a Go map matters. -/
abbrev EndpointTable := List (String × String)

/-- Modelled from the spec: a sample endpoint table containing the
default `ovh-eu` name, used for concrete evaluations. -/
def Endpoints : EndpointTable := [("ovh-eu", "https://eu.api.ovh.com/1.0")]

/-- Go map indexing `Endpoints[endpointName]`: a missing key yields the
zero value, the empty string. -/
def lookupEndpoint (table : EndpointTable) (name : String) : String :=
  match table.find? (fun e => e.1 = name) with
  | some e => e.2
  | none => ""

/-- Go's `strings.ToUpper`, on the ASCII key names used here: uppercase
every character. -/
def goToUpper (s : String) : String :=
  String.mk (s.data.map Char.toUpper)

/-- Go's `strings.Contains(s, t)` for the single-character needle `"/"`
used at line 83: does the string contain the character? -/
def goContains (s : String) (c : Char) : Bool :=
  s.data.contains c

/-- The URL-detection character of configuration.go line 83: codepoint 47
is the forward-slash character. -/
def slash : Char := Char.ofNat 47

/-- Lookup of `(section, key)` in the merged configuration: the entry
appended last wins, modelling the increasing-priority `Append` chain of
the INI library.  `none` corresponds to the `nil` section/key branches of
`getConfigValue`. -/
def iniLookup (cfg : Ini) (sec key : String) : Option String :=
  cfg.foldl (fun acc e => if e.1 = sec ∧ e.2.1 = key then some e.2.2 else acc) none

/-- `appendConfigurationFile` (configuration.go lines 33-37): append the
file only if it is readable; an unreadable path contributes nothing. -/
def appendConfigurationFile (fs : FileSystem) (cfg : Ini) (path : String) : Ini :=
  match fs path with
  | some file => cfg ++ file
  | none => cfg

/-- `getConfigValue` (configuration.go lines 105-123): the environment
variable `OVH_<NAME_UPPERCASE>` wins when non-empty, otherwise the merged
configuration value, otherwise the default. -/
def getConfigValue (env : Env) (cfg : Ini) (sec name dflt : String) : String :=
  let fromEnv := env ("OVH_" ++ goToUpper name)
  if fromEnv.length > 0 then
    fromEnv
  else
    match iniLookup cfg sec name with
    | some v => v
    | none => dflt

/-- Configuration-file loading block of `loadConfig` (lines 57-63):
system file, then user-home file when the home directory resolves
(`currentUserHome` errors are modelled by `home = none`), then the local
file, in increasing priority. -/
def mergedConfig (fs : FileSystem) (home : Option String) : Ini :=
  let cfg : Ini := []
  let cfg := appendConfigurationFile fs cfg systemConfigPath
  let cfg :=
    match home with
    | some h => appendConfigurationFile fs cfg (h ++ userConfigPath)
    | none => cfg
  appendConfigurationFile fs cfg localConfigPath

/-- Endpoint-name canonicalization of `loadConfig` (lines 66-68): an
empty hint falls back to the `(default, endpoint)` configuration value
with default `ovh-eu`. -/
def resolveEndpointName (env : Env) (cfg : Ini) (endpointName : String) : String :=
  if endpointName = "" then getConfigValue env cfg "default" "endpoint" "ovh-eu"
  else endpointName

/-- The error message of configuration.go line 91. -/
def errUnknownEndpoint (name : String) : String :=
  "Unknown endpoint '" ++ name ++ "'. Consider checking 'Endpoints' list of using an URL."

/-- The error message of configuration.go line 94. -/
def errMissingApplicationKey : String :=
  "Missing application key. Please check your configuration or consult the documentation to create one."

/-- The error message of configuration.go line 97. -/
def errMissingApplicationSecret : String :=
  "Missing application secret. Please check your configuration or consult the documentation to create one."

/-- Field-resolution and endpoint-canonicalization block of `loadConfig`
(lines 70-87), as the explicit receiver-state transformer: each empty
credential field is filled from `getConfigValue`, then `c.endpoint` is
set to the name itself when it contains a `/`, otherwise to the table
lookup. -/
def resolveClient (table : EndpointTable) (env : Env) (cfg : Ini)
    (c : Client) (epName : String) : Client :=
  let c := if c.appKey = "" then
      { c with appKey := getConfigValue env cfg epName "application_key" "" } else c
  let c := if c.appSecret = "" then
      { c with appSecret := getConfigValue env cfg epName "application_secret" "" } else c
  let c := if c.consumerKey = "" then
      { c with consumerKey := getConfigValue env cfg epName "consumer_key" "" } else c
  if goContains epName slash then { c with endpoint := epName }
  else { c with endpoint := lookupEndpoint table epName }

/-- Validation block of `loadConfig` (lines 89-100): the first failing
check among empty endpoint, empty application key, empty application
secret produces the error; otherwise success (`none`). -/
def validateClient (c : Client) (epName : String) : Option String :=
  if c.endpoint = "" then some (errUnknownEndpoint epName)
  else if c.appKey = "" then some errMissingApplicationKey
  else if c.appSecret = "" then some errMissingApplicationSecret
  else none

/-- `loadConfig` (configuration.go lines 54-101).  The Go method mutates
its receiver and returns an error; here it returns the final receiver
state paired with the optional error message. -/
def loadConfig (table : EndpointTable) (env : Env) (fs : FileSystem)
    (home : Option String) (c : Client) (endpointName : String) :
    Client × Option String :=
  let cfg := mergedConfig fs home
  let epName := resolveEndpointName env cfg endpointName
  let c := resolveClient table env cfg c epName
  (c, validateClient c epName)

example : goToUpper "application_key" = "APPLICATION_KEY" := by decide
example : goContains "https://api.example.com/1.0" slash = true := by decide
example : goContains "ovh-eu" slash = false := by decide

/-! ### Helper lemmas -/

theorem string_length_eq_zero (s : String) : s.length = 0 ↔ s = "" := by
  rw [String.ext_iff]
  cases s with
  | mk l => cases l <;> simp [String.length]

/-- `getConfigValue` characterized through the emptiness of the
environment variable: a non-empty environment value wins, otherwise the
merged configuration value, otherwise the default. -/
theorem getConfigValue_eq (env : Env) (cfg : Ini) (sec name dflt : String) :
    getConfigValue env cfg sec name dflt =
      if env ("OVH_" ++ goToUpper name) = "" then (iniLookup cfg sec name).getD dflt
      else env ("OVH_" ++ goToUpper name) := by
  unfold getConfigValue
  by_cases h : env ("OVH_" ++ goToUpper name) = ""
  · rw [if_pos h, h]
    rw [if_neg (by simp)]
    cases iniLookup cfg sec name <;> simp
  · rw [if_neg h]
    rw [if_pos (Nat.pos_of_ne_zero (fun hz => h ((string_length_eq_zero _).mp hz)))]

/-- Folding the lookup step over a list from any accumulator: a match in
the list shadows the accumulator. -/
theorem iniLookup_foldl (l : Ini) (sec key : String) (acc : Option String) :
    l.foldl (fun acc e => if e.1 = sec ∧ e.2.1 = key then some e.2.2 else acc) acc =
      (iniLookup l sec key).or acc := by
  induction l generalizing acc with
  | nil => simp [iniLookup]
  | cons e l ih =>
    simp only [iniLookup, List.foldl_cons]
    rw [ih (if e.1 = sec ∧ e.2.1 = key then some e.2.2 else acc),
      ih (if e.1 = sec ∧ e.2.1 = key then some e.2.2 else none)]
    by_cases h : e.1 = sec ∧ e.2.1 = key
    · rw [if_pos h, if_pos h]
      cases hX : iniLookup l sec key <;> simp [Option.or, hX]
    · rw [if_neg h, if_neg h, Option.or_none]

/-- Lookup distributes over append with the later part winning. -/
theorem iniLookup_append (a b : Ini) (sec key : String) :
    iniLookup (a ++ b) sec key = (iniLookup b sec key).or (iniLookup a sec key) := by
  unfold iniLookup
  rw [List.foldl_append, iniLookup_foldl]
  rfl

/-- `appendConfigurationFile` appends the file entries when readable and
nothing otherwise. -/
theorem appendConfigurationFile_eq (fs : FileSystem) (cfg : Ini) (path : String) :
    appendConfigurationFile fs cfg path = cfg ++ (fs path).getD [] := by
  unfold appendConfigurationFile
  cases fs path <;> simp

/-- The entries a single path contributes to the merge: none when the
path is missing or unreadable. -/
def fileEntries (fs : FileSystem) (path : String) : Ini :=
  (fs path).getD []

/-- The entries the user-home configuration file contributes: none when
the home directory could not be resolved. -/
def userFileEntries (fs : FileSystem) (home : Option String) : Ini :=
  match home with
  | some h => fileEntries fs (h ++ userConfigPath)
  | none => []

/-- The merged configuration is the concatenation system ++ user ++ local. -/
theorem mergedConfig_eq (fs : FileSystem) (home : Option String) :
    mergedConfig fs home =
      fileEntries fs systemConfigPath ++ userFileEntries fs home ++
        fileEntries fs localConfigPath := by
  unfold mergedConfig userFileEntries
  cases home <;> simp [appendConfigurationFile_eq, fileEntries]

/-- `validateClient` succeeds exactly when endpoint, application key and
application secret are all non-empty. -/
theorem validateClient_ne_none_iff (c : Client) (epName : String) :
    validateClient c epName ≠ none ↔
      (c.endpoint = "" ∨ c.appKey = "" ∨ c.appSecret = "") := by
  unfold validateClient
  by_cases h1 : c.endpoint = "" <;> by_cases h2 : c.appKey = "" <;>
    by_cases h3 : c.appSecret = "" <;> simp [h1, h2, h3]

/-- `resolveClient` characterized field by field: each empty credential
field is filled from `getConfigValue`, a non-empty one is kept, and the
endpoint is the name itself when it contains a slash, the table lookup
otherwise. -/
theorem resolveClient_eq (table : EndpointTable) (env : Env) (cfg : Ini)
    (c : Client) (ep : String) :
    resolveClient table env cfg c ep =
      { endpoint := if goContains ep slash then ep else lookupEndpoint table ep,
        appKey := if c.appKey = "" then
          getConfigValue env cfg ep "application_key" "" else c.appKey,
        appSecret := if c.appSecret = "" then
          getConfigValue env cfg ep "application_secret" "" else c.appSecret,
        consumerKey := if c.consumerKey = "" then
          getConfigValue env cfg ep "consumer_key" "" else c.consumerKey } := by
  simp only [resolveClient]
  by_cases h1 : c.appKey = "" <;> by_cases h2 : c.appSecret = "" <;>
    by_cases h3 : c.consumerKey = "" <;> by_cases h4 : goContains ep slash = true <;>
    simp [h1, h2, h3, h4]

/-! ### Concrete inputs for evaluating the theorems -/

/-- An environment with every variable unset. -/
def envNone : Env := fun _ => ""

/-- An environment that sets all four `OVH_*` variables, to exercise
override behaviour. -/
def envAll : Env := fun name =>
  if name = "OVH_ENDPOINT" then "ovh-eu"
  else if name = "OVH_APPLICATION_KEY" then "env-ak"
  else if name = "OVH_APPLICATION_SECRET" then "env-as"
  else if name = "OVH_CONSUMER_KEY" then "env-ck"
  else ""

/-- An environment that sets only `OVH_APPLICATION_KEY`. -/
def envKeyOnly : Env := fun name =>
  if name = "OVH_APPLICATION_KEY" then "env-ak" else ""

/-- An environment that sets only the application key and secret, as in
the spec's no-files example. -/
def envKeySecret : Env := fun name =>
  if name = "OVH_APPLICATION_KEY" then "env-ak"
  else if name = "OVH_APPLICATION_SECRET" then "env-as"
  else ""

/-- A file system with no readable configuration file. -/
def fsNone : FileSystem := fun _ => none

/-- A file system with only the local `./ovh.conf` present. -/
def fsLocal : FileSystem := fun p =>
  if p = localConfigPath then
    some [("default", "endpoint", "ovh-eu"),
          ("ovh-eu", "application_key", "local-ak"),
          ("ovh-eu", "application_secret", "local-as")]
  else none

/-- A client with no field set. -/
def clientEmpty : Client := { endpoint := "", appKey := "", appSecret := "", consumerKey := "" }

/-- A client whose credential fields were all set by the caller. -/
def clientFull : Client :=
  { endpoint := "", appKey := "caller-ak", appSecret := "caller-as", consumerKey := "caller-ck" }

/-! ### Claims -/

/-- C1: any of the four fields (endpoint name hint, application key,
application secret, consumer key) that the caller already supplied as a
non-empty value is left exactly as the caller set it, independently of
the other fields: neither environment variables nor configuration-file
values override an explicitly set field. -/
theorem loadConfig_explicit_fields_preserved (table : EndpointTable) (env : Env)
    (fs : FileSystem) (home : Option String) (c : Client) (name : String) :
    (name ≠ "" → resolveEndpointName env (mergedConfig fs home) name = name) ∧
    (c.appKey ≠ "" → (loadConfig table env fs home c name).1.appKey = c.appKey) ∧
    (c.appSecret ≠ "" → (loadConfig table env fs home c name).1.appSecret = c.appSecret) ∧
    (c.consumerKey ≠ "" →
      (loadConfig table env fs home c name).1.consumerKey = c.consumerKey) := by
  refine ⟨fun hname => by rw [resolveEndpointName, if_neg hname], fun hak => ?_,
    fun has => ?_, fun hck => ?_⟩
  · simp [loadConfig, resolveClient_eq, hak]
  · simp [loadConfig, resolveClient_eq, has]
  · simp [loadConfig, resolveClient_eq, hck]

/-- C1 witness: with every environment variable set and a local
configuration file present, a fully caller-configured client keeps all
its fields. -/
theorem loadConfig_explicit_fields_preserved_witness :
    ("ovh-eu" : String) ≠ "" ∧ clientFull.appKey ≠ "" ∧ clientFull.appSecret ≠ "" ∧
      clientFull.consumerKey ≠ "" ∧
    (resolveEndpointName envAll (mergedConfig fsLocal (some "/home/u")) "ovh-eu" = "ovh-eu" ∧
      (loadConfig Endpoints envAll fsLocal (some "/home/u") clientFull "ovh-eu").1.appKey =
        clientFull.appKey ∧
      (loadConfig Endpoints envAll fsLocal (some "/home/u") clientFull "ovh-eu").1.appSecret =
        clientFull.appSecret ∧
      (loadConfig Endpoints envAll fsLocal (some "/home/u") clientFull "ovh-eu").1.consumerKey =
        clientFull.consumerKey) :=
  ⟨by decide, by decide, by decide, by decide,
    (loadConfig_explicit_fields_preserved Endpoints envAll fsLocal (some "/home/u")
      clientFull "ovh-eu").1 (by decide),
    (loadConfig_explicit_fields_preserved Endpoints envAll fsLocal (some "/home/u")
      clientFull "ovh-eu").2.1 (by decide),
    (loadConfig_explicit_fields_preserved Endpoints envAll fsLocal (some "/home/u")
      clientFull "ovh-eu").2.2.1 (by decide),
    (loadConfig_explicit_fields_preserved Endpoints envAll fsLocal (some "/home/u")
      clientFull "ovh-eu").2.2.2 (by decide)⟩

/-- C3: looking up a `(section, key)` pair in the merged configuration
gives the value from the latest of the three sources that defines it, in
the fixed order system-wide, then user-home, then local; in particular a
local-file value shadows a user-home value for the same pair. -/
theorem mergedConfig_last_wins (fs : FileSystem) (home : Option String)
    (sec key : String) :
    iniLookup (mergedConfig fs home) sec key =
      ((iniLookup (fileEntries fs localConfigPath) sec key).or
        ((iniLookup (userFileEntries fs home) sec key).or
          (iniLookup (fileEntries fs systemConfigPath) sec key))) := by
  rw [mergedConfig_eq, iniLookup_append, iniLookup_append]

/-- C4: a missing or unreadable configuration file contributes no
`(section, key)` values to the merge, and `loadConfig` fails exactly when
the resolved endpoint, application key or application secret is empty
after merging — never because of a missing file. -/
theorem loadConfig_missing_file_harmless (table : EndpointTable) (env : Env)
    (fs : FileSystem) (home : Option String) (c : Client) (name : String)
    (cfg : Ini) (path : String) (hmiss : fs path = none) :
    appendConfigurationFile fs cfg path = cfg ∧
    ((loadConfig table env fs home c name).2 ≠ none ↔
      ((loadConfig table env fs home c name).1.endpoint = "" ∨
       (loadConfig table env fs home c name).1.appKey = "" ∨
       (loadConfig table env fs home c name).1.appSecret = "")) := by
  constructor
  · simp [appendConfigurationFile, hmiss]
  · simp only [loadConfig]
    exact validateClient_ne_none_iff _ _

/-- C4 witness: with no readable file at all, resolution still runs and
its failure is exactly the emptiness of a required resolved field. -/
theorem loadConfig_missing_file_harmless_witness :
    fsNone systemConfigPath = none ∧
    appendConfigurationFile fsNone [] systemConfigPath = [] ∧
    ((loadConfig Endpoints envAll fsNone none clientEmpty "").2 ≠ none ↔
      ((loadConfig Endpoints envAll fsNone none clientEmpty "").1.endpoint = "" ∨
       (loadConfig Endpoints envAll fsNone none clientEmpty "").1.appKey = "" ∨
       (loadConfig Endpoints envAll fsNone none clientEmpty "").1.appSecret = "")) :=
  ⟨rfl,
    (loadConfig_missing_file_harmless Endpoints envAll fsNone none clientEmpty ""
      [] systemConfigPath rfl).1,
    (loadConfig_missing_file_harmless Endpoints envAll fsNone none clientEmpty ""
      [] systemConfigPath rfl).2⟩

/-- C5: when the resolved endpoint name contains a slash, `loadConfig`
uses the name verbatim as the endpoint URL, and the whole result is
independent of the endpoint table. -/
theorem loadConfig_url_endpoint_verbatim (table table2 : EndpointTable) (env : Env)
    (fs : FileSystem) (home : Option String) (c : Client) (name : String)
    (h : goContains (resolveEndpointName env (mergedConfig fs home) name) slash = true) :
    (loadConfig table env fs home c name).1.endpoint =
      resolveEndpointName env (mergedConfig fs home) name ∧
    loadConfig table env fs home c name = loadConfig table2 env fs home c name := by
  constructor <;> simp [loadConfig, resolveClient, h]

/-- C5 witness: the literal URL hint of the spec's example yields exactly
that URL, with the sample table and with the empty table alike. -/
theorem loadConfig_url_endpoint_verbatim_witness :
    goContains (resolveEndpointName envNone (mergedConfig fsLocal none)
      "https://api.example.com/1.0") slash = true ∧
    ((loadConfig Endpoints envNone fsLocal none clientEmpty
        "https://api.example.com/1.0").1.endpoint =
      resolveEndpointName envNone (mergedConfig fsLocal none) "https://api.example.com/1.0" ∧
     loadConfig Endpoints envNone fsLocal none clientEmpty "https://api.example.com/1.0" =
       loadConfig [] envNone fsLocal none clientEmpty "https://api.example.com/1.0") :=
  ⟨by decide,
    loadConfig_url_endpoint_verbatim Endpoints [] envNone fsLocal none clientEmpty
      "https://api.example.com/1.0" (by decide)⟩

/-- C6: when the resolved endpoint name contains no slash and matches no
entry of the endpoint table, `loadConfig` fails with the UnknownEndpoint
error naming that endpoint. -/
theorem loadConfig_unknown_endpoint_error (table : EndpointTable) (env : Env)
    (fs : FileSystem) (home : Option String) (c : Client) (name : String)
    (h1 : goContains (resolveEndpointName env (mergedConfig fs home) name) slash = false)
    (h2 : table.find?
      (fun e => e.1 = resolveEndpointName env (mergedConfig fs home) name) = none) :
    (loadConfig table env fs home c name).2 =
      some (errUnknownEndpoint (resolveEndpointName env (mergedConfig fs home) name)) := by
  have hl : lookupEndpoint table (resolveEndpointName env (mergedConfig fs home) name) = "" := by
    rw [lookupEndpoint, h2]
  simp [loadConfig, resolveClient, validateClient, h1, hl]

/-- C6 witness: the name `bogus`, absent from the sample table, produces
the UnknownEndpoint error naming `bogus`. -/
theorem loadConfig_unknown_endpoint_error_witness :
    goContains (resolveEndpointName envNone (mergedConfig fsNone none) "bogus") slash = false ∧
    Endpoints.find? (fun e => e.1 = resolveEndpointName envNone (mergedConfig fsNone none)
      "bogus") = none ∧
    (loadConfig Endpoints envNone fsNone none clientEmpty "bogus").2 =
      some (errUnknownEndpoint (resolveEndpointName envNone (mergedConfig fsNone none) "bogus")) :=
  ⟨by decide, by decide,
    loadConfig_unknown_endpoint_error Endpoints envNone fsNone none clientEmpty "bogus"
      (by decide) (by decide)⟩

/-- C9: an empty consumer key is never an error: whenever the resolved
endpoint, application key and application secret are all non-empty,
`loadConfig` succeeds, even though the consumer key may be empty. -/
theorem loadConfig_consumer_key_optional (table : EndpointTable) (env : Env)
    (fs : FileSystem) (home : Option String) (c : Client) (name : String)
    (hep : (loadConfig table env fs home c name).1.endpoint ≠ "")
    (hak : (loadConfig table env fs home c name).1.appKey ≠ "")
    (has : (loadConfig table env fs home c name).1.appSecret ≠ "") :
    (loadConfig table env fs home c name).2 = none := by
  simp only [loadConfig] at hep hak has ⊢
  rw [validateClient, if_neg hep, if_neg hak, if_neg has]

/-- C9 witness: the spec's no-files example — only the application key
and secret set in the environment — succeeds with an empty consumer
key. -/
theorem loadConfig_consumer_key_optional_witness :
    (loadConfig Endpoints envKeySecret fsNone none clientEmpty "ovh-eu").1.endpoint ≠ "" ∧
    (loadConfig Endpoints envKeySecret fsNone none clientEmpty "ovh-eu").1.appKey ≠ "" ∧
    (loadConfig Endpoints envKeySecret fsNone none clientEmpty "ovh-eu").1.appSecret ≠ "" ∧
    (loadConfig Endpoints envKeySecret fsNone none clientEmpty "ovh-eu").1.consumerKey = "" ∧
    (loadConfig Endpoints envKeySecret fsNone none clientEmpty "ovh-eu").2 = none :=
  ⟨by decide, by decide, by decide, by decide,
    loadConfig_consumer_key_optional Endpoints envKeySecret fsNone none clientEmpty "ovh-eu"
      (by decide) (by decide) (by decide)⟩

/-- C2: for each field the caller left empty — application key,
application secret, consumer key, and the default endpoint-name lookup —
a non-empty `OVH_<FIELD_NAME_UPPERCASE>` environment variable beats any
merged file value, while an unset (empty) variable lets the merged file
value (or the default) through. -/
theorem loadConfig_env_beats_file (table : EndpointTable) (env : Env)
    (fs : FileSystem) (home : Option String) (c : Client) (name : String) :
    (name = "" → resolveEndpointName env (mergedConfig fs home) name =
      (if env "OVH_ENDPOINT" = "" then
        (iniLookup (mergedConfig fs home) "default" "endpoint").getD "ovh-eu"
       else env "OVH_ENDPOINT")) ∧
    (c.appKey = "" → (loadConfig table env fs home c name).1.appKey =
      (if env "OVH_APPLICATION_KEY" = "" then
        (iniLookup (mergedConfig fs home)
          (resolveEndpointName env (mergedConfig fs home) name) "application_key").getD ""
       else env "OVH_APPLICATION_KEY")) ∧
    (c.appSecret = "" → (loadConfig table env fs home c name).1.appSecret =
      (if env "OVH_APPLICATION_SECRET" = "" then
        (iniLookup (mergedConfig fs home)
          (resolveEndpointName env (mergedConfig fs home) name) "application_secret").getD ""
       else env "OVH_APPLICATION_SECRET")) ∧
    (c.consumerKey = "" → (loadConfig table env fs home c name).1.consumerKey =
      (if env "OVH_CONSUMER_KEY" = "" then
        (iniLookup (mergedConfig fs home)
          (resolveEndpointName env (mergedConfig fs home) name) "consumer_key").getD ""
       else env "OVH_CONSUMER_KEY")) := by
  have e1 : ("OVH_" ++ goToUpper "endpoint") = "OVH_ENDPOINT" := by decide
  have e2 : ("OVH_" ++ goToUpper "application_key") = "OVH_APPLICATION_KEY" := by decide
  have e3 : ("OVH_" ++ goToUpper "application_secret") = "OVH_APPLICATION_SECRET" := by decide
  have e4 : ("OVH_" ++ goToUpper "consumer_key") = "OVH_CONSUMER_KEY" := by decide
  refine ⟨fun hname => ?_, fun hak => ?_, fun has => ?_, fun hck => ?_⟩
  · subst hname
    rw [resolveEndpointName, if_pos rfl, getConfigValue_eq, e1]
  · simp only [loadConfig, resolveClient_eq]
    rw [if_pos hak, getConfigValue_eq, e2]
  · simp only [loadConfig, resolveClient_eq]
    rw [if_pos has, getConfigValue_eq, e3]
  · simp only [loadConfig, resolveClient_eq]
    rw [if_pos hck, getConfigValue_eq, e4]

/-- C2 witness: with only `OVH_APPLICATION_KEY` set and a local file
defining the section, the environment wins for the application key while
the file value is used for the endpoint name and application secret. -/
theorem loadConfig_env_beats_file_witness :
    clientEmpty.appKey = "" ∧ clientEmpty.appSecret = "" ∧ clientEmpty.consumerKey = "" ∧
    (loadConfig Endpoints envKeyOnly fsLocal none clientEmpty "").1.appKey =
      (if envKeyOnly "OVH_APPLICATION_KEY" = "" then
        (iniLookup (mergedConfig fsLocal none)
          (resolveEndpointName envKeyOnly (mergedConfig fsLocal none) "") "application_key").getD ""
       else envKeyOnly "OVH_APPLICATION_KEY") ∧
    (loadConfig Endpoints envKeyOnly fsLocal none clientEmpty "").1.appSecret =
      (if envKeyOnly "OVH_APPLICATION_SECRET" = "" then
        (iniLookup (mergedConfig fsLocal none)
          (resolveEndpointName envKeyOnly (mergedConfig fsLocal none) "") "application_secret").getD ""
       else envKeyOnly "OVH_APPLICATION_SECRET") ∧
    (loadConfig Endpoints envKeyOnly fsLocal none clientEmpty "").1.appKey = "env-ak" ∧
    (loadConfig Endpoints envKeyOnly fsLocal none clientEmpty "").1.appSecret = "local-as" :=
  ⟨rfl, rfl, rfl,
    (loadConfig_env_beats_file Endpoints envKeyOnly fsLocal none clientEmpty "").2.1 rfl,
    (loadConfig_env_beats_file Endpoints envKeyOnly fsLocal none clientEmpty "").2.2.1 rfl,
    by decide, by decide⟩

/-- A client whose caller set only the application secret. -/
def clientSecretOnly : Client :=
  { endpoint := "", appKey := "", appSecret := "caller-as", consumerKey := "" }

/-- C7 counterexample: with an unrecognized endpoint name, an application
key that resolves empty, and a valid application secret, the returned
error is UnknownEndpoint, not MissingApplicationKey — refuting the claim
that an empty application key yields MissingApplicationKey regardless of
the endpoint being valid. -/
theorem loadConfig_missing_key_not_first_cex :
    (loadConfig Endpoints envNone fsNone none clientSecretOnly "bogus").1.appKey = "" ∧
    (loadConfig Endpoints envNone fsNone none clientSecretOnly "bogus").2 ≠
      some errMissingApplicationKey ∧
    (loadConfig Endpoints envNone fsNone none clientSecretOnly "bogus").2 =
      some (errUnknownEndpoint "bogus") :=
  ⟨by decide, by decide, by decide⟩

/-- C7 (amended): if after full precedence resolution the application key
is empty while the resolved endpoint is valid (non-empty after
canonicalization), loadConfig returns the MissingApplicationKey error,
regardless of whether the application secret is valid. -/
theorem loadConfig_missing_app_key_error (table : EndpointTable) (env : Env)
    (fs : FileSystem) (home : Option String) (c : Client) (name : String)
    (hep : (loadConfig table env fs home c name).1.endpoint ≠ "")
    (hak : (loadConfig table env fs home c name).1.appKey = "") :
    (loadConfig table env fs home c name).2 = some errMissingApplicationKey := by
  simp only [loadConfig] at hep hak ⊢
  rw [validateClient, if_neg hep, if_pos hak]

/-- C7 witness: a known endpoint, an empty application key and a valid
caller-set application secret produce exactly MissingApplicationKey. -/
theorem loadConfig_missing_app_key_error_witness :
    (loadConfig Endpoints envNone fsNone none clientSecretOnly "ovh-eu").1.endpoint ≠ "" ∧
    (loadConfig Endpoints envNone fsNone none clientSecretOnly "ovh-eu").1.appKey = "" ∧
    (loadConfig Endpoints envNone fsNone none clientSecretOnly "ovh-eu").1.appSecret ≠ "" ∧
    (loadConfig Endpoints envNone fsNone none clientSecretOnly "ovh-eu").2 =
      some errMissingApplicationKey :=
  ⟨by decide, by decide, by decide,
    loadConfig_missing_app_key_error Endpoints envNone fsNone none clientSecretOnly "ovh-eu"
      (by decide) (by decide)⟩

/-- C8 counterexample: with `OVH_APPLICATION_KEY` set and an unknown
endpoint name, loadConfig returns an error yet the client state differs
from its value before the call — the application key was already filled
in from the environment — refuting the claim that the configuration
state is left unchanged on error. -/
theorem loadConfig_mutates_on_error_cex :
    ((loadConfig Endpoints envKeyOnly fsNone none clientEmpty "bogus").2).isSome = true ∧
    (loadConfig Endpoints envKeyOnly fsNone none clientEmpty "bogus").1 ≠ clientEmpty ∧
    (loadConfig Endpoints envKeyOnly fsNone none clientEmpty "bogus").1.appKey = "env-ak" :=
  ⟨by decide, by decide, by decide⟩

/-- C8 (amended): every failure of loadConfig is a terminal error equal
to one of the three fixed descriptive messages — there is no other
failure mode — but fields resolved before the failing check may already
have been updated on the client when the error is returned. -/
theorem loadConfig_error_descriptive (table : EndpointTable) (env : Env)
    (fs : FileSystem) (home : Option String) (c : Client) (name : String) (e : String)
    (h : (loadConfig table env fs home c name).2 = some e) :
    e = errUnknownEndpoint (resolveEndpointName env (mergedConfig fs home) name) ∨
    e = errMissingApplicationKey ∨ e = errMissingApplicationSecret := by
  simp only [loadConfig, validateClient] at h
  split at h
  · exact Or.inl (Option.some.inj h).symm
  · split at h
    · exact Or.inr (Or.inl (Option.some.inj h).symm)
    · split at h
      · exact Or.inr (Or.inr (Option.some.inj h).symm)
      · exact absurd h (by simp)

/-- C8 witness: the UnknownEndpoint failure is one of the three fixed
errors. -/
theorem loadConfig_error_descriptive_witness :
    (loadConfig Endpoints envNone fsNone none clientEmpty "bogus").2 =
      some (errUnknownEndpoint "bogus") ∧
    (errUnknownEndpoint "bogus" =
        errUnknownEndpoint (resolveEndpointName envNone (mergedConfig fsNone none) "bogus") ∨
      errUnknownEndpoint "bogus" = errMissingApplicationKey ∨
      errUnknownEndpoint "bogus" = errMissingApplicationSecret) :=
  ⟨by decide,
    loadConfig_error_descriptive Endpoints envNone fsNone none clientEmpty "bogus"
      (errUnknownEndpoint "bogus") (by decide)⟩

/-- The UnknownEndpoint message never coincides with the
MissingApplicationKey message, whatever the endpoint name. -/
theorem errUnknownEndpoint_ne_missingKey (name : String) :
    errUnknownEndpoint name ≠ errMissingApplicationKey := by
  intro h
  have h2 := congrArg (fun s => s.data.head?) h
  simp only [errUnknownEndpoint, errMissingApplicationKey, String.data_append] at h2
  rw [List.append_assoc, List.head?_append] at h2
  simp only [List.head?, Option.or] at h2
  exact absurd h2 (by decide)

/-- The UnknownEndpoint message never coincides with the
MissingApplicationSecret message, whatever the endpoint name. -/
theorem errUnknownEndpoint_ne_missingSecret (name : String) :
    errUnknownEndpoint name ≠ errMissingApplicationSecret := by
  intro h
  have h2 := congrArg (fun s => s.data.head?) h
  simp only [errUnknownEndpoint, errMissingApplicationSecret, String.data_append] at h2
  rw [List.append_assoc, List.head?_append] at h2
  simp only [List.head?, Option.or] at h2
  exact absurd h2 (by decide)

/-- C10: several simultaneous failure conditions are reported by a single
error chosen in the fixed order unknown endpoint first, then missing
application key, then missing application secret; the three errors are
pairwise distinct, so in particular an unrecognized endpoint with an
empty application key reports UnknownEndpoint, not
MissingApplicationKey. -/
theorem loadConfig_error_priority (table : EndpointTable) (env : Env)
    (fs : FileSystem) (home : Option String) (c : Client) (name : String) :
    (loadConfig table env fs home c name).2 =
      (if (loadConfig table env fs home c name).1.endpoint = "" then
        some (errUnknownEndpoint (resolveEndpointName env (mergedConfig fs home) name))
       else if (loadConfig table env fs home c name).1.appKey = "" then
        some errMissingApplicationKey
       else if (loadConfig table env fs home c name).1.appSecret = "" then
        some errMissingApplicationSecret
       else none) ∧
    errUnknownEndpoint (resolveEndpointName env (mergedConfig fs home) name) ≠
      errMissingApplicationKey ∧
    errUnknownEndpoint (resolveEndpointName env (mergedConfig fs home) name) ≠
      errMissingApplicationSecret ∧
    errMissingApplicationKey ≠ errMissingApplicationSecret := by
  refine ⟨?_, errUnknownEndpoint_ne_missingKey _, errUnknownEndpoint_ne_missingSecret _,
    by decide⟩
  simp only [loadConfig]
  rfl

end Govh
